import Mathlib

/-!
Verification of the linguistic_chatbot core against its design spec.

The Python sources are shallowly embedded:
* `chatbot_engine.py`   → `findBestMatch`, `processMessage`, the knowledge base
* `language_processor.py` → `detectLanguage`, `patternBasedDetection`
* `conversation_logger.py` → `Store`, `logTurnPhase1`, `updateDailyStats`,
  `logConversation`, `cleanupOldLogs`
* `BACKEND/main.py`     → `chatEndpoint`

Real numbers (Python floats) are modelled as `ℚ`; SQL TEXT timestamps and
dates keep their lexicographic comparison as `String` `<`.  The external
`langdetect` library is a parameter (`String → Except Unit String`, `.error`
standing for `LangDetectException`).  `difflib.SequenceMatcher` is embedded
below without the autojunk heuristic, which only activates for second
arguments of length ≥ 200 and is behaviourally identical below that.
Python's `str.lower` is modelled on ASCII letters (the knowledge-base
keywords contain no other cased characters).
-/

namespace LingBot

/-! ### difflib.SequenceMatcher (stdlib dependency of `_find_best_match`) -/

/-- Whether positions `i` of `a` and `j` of `b` hold equal characters and lie
inside the windows starting at `alo`/`blo`. -/
def rleCond (a b : List Char) (alo blo i j : Nat) : Bool :=
  decide (alo ≤ i) && decide (blo ≤ j) && decide (i < a.length) && decide (j < b.length) &&
    decide (a.getD i ' ' = b.getD j ' ')

/-- Length of the common run of equal characters of `a` and `b` ending at
positions `i` (in `a`) and `j` (in `b`), not reaching left of `alo`/`blo`.
This is the quantity difflib's `find_longest_match` tabulates in `j2len`. -/
def runLenEnd (a b : List Char) (alo blo : Nat) : Nat → Nat → Nat
  | 0, j => if rleCond a b alo blo 0 j then 1 else 0
  | i + 1, j =>
    if rleCond a b alo blo (i + 1) j then
      if i + 1 = alo ∨ j = blo then 1
      else 1 + runLenEnd a b alo blo i (j - 1)
    else 0

/-- One step of the scan in `find_longest_match`: at end position `(i, j)`
replace the best block when the run ending there is strictly longer. -/
def flmStep (a b : List Char) (alo blo : Nat) (st : Nat × Nat × Nat) (ij : Nat × Nat) :
    Nat × Nat × Nat :=
  let k := runLenEnd a b alo blo ij.1 ij.2
  if st.2.2 < k then (ij.1 + 1 - k, ij.2 + 1 - k, k) else st

/-- The end positions `(i, j)` scanned by `find_longest_match`, in the order
the Python loops visit them (`i` ascending, then `j` ascending). -/
def flmPairs (alo ahi blo bhi : Nat) : List (Nat × Nat) :=
  ((List.range' alo (ahi - alo)).map
    (fun i => (List.range' blo (bhi - blo)).map (fun j => (i, j)))).flatten

/-- difflib `find_longest_match` on the windows `a[alo:ahi]`, `b[blo:bhi]`
(no junk): the longest matching block `(i, j, size)`, earliest in `a` then in
`b` on ties. -/
def findLongestMatch (a b : List Char) (alo ahi blo bhi : Nat) : Nat × Nat × Nat :=
  (flmPairs alo ahi blo bhi).foldl (flmStep a b alo blo) (alo, blo, 0)

/-- Total size of the matching blocks found by difflib `get_matching_blocks`:
recursively take the longest match and recurse on both sides.  `fuel` bounds
the recursion depth; any `fuel` at least the `a`-window size is exact. -/
def matchingBlocksSum (a b : List Char) : Nat → Nat → Nat → Nat → Nat → Nat
  | 0, _, _, _, _ => 0
  | fuel + 1, alo, ahi, blo, bhi =>
    let r := findLongestMatch a b alo ahi blo bhi
    if r.2.2 = 0 then 0
    else
      r.2.2 + matchingBlocksSum a b fuel alo r.1 blo r.2.1 +
        matchingBlocksSum a b fuel (r.1 + r.2.2) ahi (r.2.1 + r.2.2) bhi

/-- Kernel-computable multiplication on `ℚ`.  The Batteries `Rat.mul` is
`@[irreducible]`, which blocks `decide`; `qmul_eq` below proves this is
ordinary multiplication. -/
def qmul (a b : ℚ) : ℚ := mkRat (a.num * b.num) (a.den * b.den)

/-- Kernel-computable addition on `ℚ`; `qadd_eq` below proves this is
ordinary addition. -/
def qadd (a b : ℚ) : ℚ := mkRat (a.num * b.den + b.num * a.den) (a.den * b.den)

/-- Kernel-computable division on `ℚ`; `qdiv_eq` below proves this is
ordinary division (with the `x / 0 = 0` convention of `ℚ`). -/
def qdiv (a b : ℚ) : ℚ := Rat.divInt (a.num * (b.den : Int)) ((a.den : Int) * b.num)

/-- difflib `SequenceMatcher(None, a, b).ratio()`: `2*M / (len(a)+len(b))`,
`1` when both are empty. -/
def smRatio (a b : String) : ℚ :=
  let la := a.data.length
  let lb := b.data.length
  let m := matchingBlocksSum a.data b.data la 0 la 0 lb
  if la + lb = 0 then 1 else qdiv (qmul 2 (m : ℚ)) ((la + lb : Nat) : ℚ)

/-! ### Knowledge base (`_get_default_knowledge_base`) -/

/-- ASCII lower-casing, modelling `str.lower()` on the texts at hand. -/
def lowerString (s : String) : String := ⟨s.data.map Char.toLower⟩

/-- Python `needle in hay` on strings: substring containment. -/
def containsSub (hay needle : String) : Bool := decide (needle.data <:+: hay.data)

/-- The static contact record of the knowledge base. -/
structure Contact where
  office_hours : String
  phone : String
  email : String
  address : String
  deriving DecidableEq, Repr

/-- `knowledge_base["contact"]`. -/
def contactRecord : Contact :=
  { office_hours := "9:00 AM - 5:00 PM, Monday to Friday"
    phone := "+91-XXX-XXX-XXXX"
    email := "info@college.edu"
    address := "College Campus, City, State" }

/-- One category of the knowledge base: keyword list plus per-language
responses (association list, language code → text). -/
structure CategoryData where
  keywords : List String
  responses : List (String × String)
  deriving DecidableEq, Repr

/-- Association-list lookup, modelling Python `dict.get(k)`. -/
def aget (l : List (String × String)) (k : String) : Option String :=
  (l.find? (fun p => p.1 = k)).map (fun p => p.2)

/-- `knowledge_base["categories"]["fees"]`. -/
def feesData : CategoryData :=
  { keywords := ["fee", "fees", "payment", "tuition", "शुल्क", "फीस", "ફી", "शुल्क"]
    responses :=
     [ ("en", "Fee payment deadline is usually at the beginning of each semester. You can pay online through the college portal or visit the accounts office.")
     , ("hi", "शुल्क भुगतान की अंतिम तिथि आमतौर पर हर सेमेस्टर की शुरुआत में होती है। आप कॉलेज पोर्टल के माध्यम से ऑनलाइन भुगतान कर सकते हैं या खाता कार्यालय जा सकते हैं।")
     , ("gu", "ફી ચુકવણીની અંતિમ તારીખ સામાન્ય રીતે દરેક સેમેસ્ટરની શરૂઆતમાં હોય છે. તમે કૉલેજ પોર્ટલ દ્વારા ઑનલાઇન ચુકવણી કરી શકો છો અથવા એકાઉન્ટ્સ ઑફિસની મુલાકાત લઈ શકો છો.")
     , ("mr", "शुल्क भरणाची शेवटची तारीख सहसा प्रत्येक सेमेस्टरच्या सुरुवातीला असते. तुम्ही कॉलेज पोर्टलद्वारे ऑनलाइन पेमेंट करू शकता किंवा खाते कार्यालयात जाऊ शकता.")
     , ("raj", "शुल्क भुगतान री अंतिम तारीख सामान्यतः हर सेमेस्टर री शुरुआत में होवै। थे कॉलेज पोर्टल रे जरिये ऑनलाइन भुगतान कर सको या खाता कार्यालय जा सको।")
     ] }

/-- `knowledge_base["categories"]["scholarships"]`. -/
def scholarshipsData : CategoryData :=
  { keywords := ["scholarship", "scholarships", "financial aid", "छात्रवृत्ति", "स्कॉलरशिप", "સ્કોલરશિપ", "शिष्यवृत्ती"]
    responses :=
     [ ("en", "Scholarship applications are available on the college website. Merit and need-based scholarships are offered. Submit documents before the deadline.")
     , ("hi", "छात्रवृत्ति के लिए आवेदन कॉलेज की वेबसाइट पर उपलब्ध हैं। योग्यता और आवश्यकता आधारित छात्रवृत्ति उपलब्ध हैं। अंतिम तिथि से पहले दस्तावेज जमा करें।")
     , ("gu", "સ્કોલરશિપ માટે અરજીઓ કૉલેજની વેબસાઇટ પર ઉપલબ્ધ છે. મેરિટ અને જરૂરિયાત આધારિત સ્કોલરશિપ ઓફર કરવામાં આવે છે. અંતિમ તારીખ પહેલા દસ્તાવેજો સબમિટ કરો.")
     , ("mr", "शिष्यवृत्तीसाठी अर्ज कॉलेजच्या वेबसाइटवर उपलब्ध आहेत. गुणवत्ता आणि गरज आधारित शिष्यवृत्ती दिली जाते. शेवटच्या तारखेपूर्वी कागदपत्रे सादर करा.")
     , ("raj", "छात्रवृत्ति के लिए आवेदन कॉलेज री वेबसाइट पे उपलब्ध है। योग्यता अर गरज के आधार पे छात्रवृत्ति मिलै। अंतिम तारीख सूं पैली दस्तावेज जमा करो।")
     ] }

/-- `knowledge_base["categories"]["timetable"]`. -/
def timetableData : CategoryData :=
  { keywords := ["timetable", "schedule", "class", "timing", "समय सारणी", "टाइम टेबल", "વર્ગ", "वेळापत्रक"]
    responses :=
     [ ("en", "Timetables are updated on the college notice board and website. Check for any last-minute changes before attending classes.")
     , ("hi", "समय सारणी कॉलेज के नोटिस बोर्ड और वेबसाइट पर अपडेट की जाती है। कक्षा में जाने से पहले किसी भी अंतिम समय के बदलाव की जांच करें।")
     , ("gu", "સમયપત્રક કૉલેજના નોટિસ બોર્ડ અને વેબસાઇટ પર અપડેટ કરવામાં આવે છે. વર્ગમાં હાજરી આપતા પહેલા કોઈપણ છેલ્લી ઘડીના ફેરફારો માટે તપાસો.")
     , ("mr", "वेळापत्रक कॉलेजच्या नोटीस बोर्ड आणि वेबसाइटवर अपडेट केले जाते. वर्गात जाण्यापूर्वी शेवटच्या क्षणी झालेल्या बदलांची तपासणी करा.")
     , ("raj", "समय सारणी कॉलेज रे नोटिस बोर्ड अर वेबसाइट पे अपडेट होवै। क्लास में जावण सूं पैली कोई भी अंतिम समय रे बदलाव री जांच करो।")
     ] }

/-- `knowledge_base["categories"]["admission"]`. -/
def admissionData : CategoryData :=
  { keywords := ["admission", "admissions", "apply", "entrance", "प्रवेश", "दाखिला", "પ્રવેશ", "प्रवेश"]
    responses :=
     [ ("en", "Admission applications are open from June to August. Check eligibility criteria, fill the online form, and submit required documents.")
     , ("hi", "प्रवेश आवेदन जून से अगस्त तक खुले रहते हैं। पात्रता मानदंड जांचें, ऑनलाइन फॉर्म भरें और आवश्यक दस्तावेज जमा करें।")
     , ("gu", "પ્રવેશની અરજીઓ જૂનથી ઓગસ્ટ સુધી ખુલ્લી છે. પાત્રતાના માપદંડો તપાસો, ઓનલાઇન ફોર્મ ભરો અને જરૂરી દસ્તાવેજો સબમિટ કરો.")
     , ("mr", "प्रवेश अर्ज जून ते ऑगस्ट पर्यंत उघडे आहेत. पात्रता निकष तपासा, ऑनलाइन फॉर्म भरा आणि आवश्यक कागदपत्रे सादर करा.")
     , ("raj", "प्रवेश आवेदन जून सूं अगस्त तक खुले रहवै हैं। पात्रता मानदंड देखो, ऑनलाइन फॉर्म भरो अर जरूरी दस्तावेज जमा करो।")
     ] }

/-- `knowledge_base["categories"]["exams"]`. -/
def examsData : CategoryData :=
  { keywords := ["exam", "exams", "test", "results", "marks", "परीक्षा", "પરીક્ષા", "परीक्षा"]
    responses :=
     [ ("en", "Exam schedules are published on the college website 2 weeks before exams. Results are declared within 30 days after completion.")
     , ("hi", "परीक्षा कार्यक्रम परीक्षा से 2 सप्ताह पहले कॉलेज की वेबसाइट पर प्रकाशित होते हैं। परिणाम पूरा होने के 30 दिनों के भीतर घोषित किए जाते हैं।")
     , ("gu", "પરીક્ષાનું શેડ્યૂલ પરીક્ષાના 2 અઠવાડિયા પહેલા કૉલેજની વેબસાઇટ પર પ્રકાશિત કરવામાં આવે છે. પરિણામો પૂર્ણ થયાના 30 દિવસની અંદર જાહેર કરવામાં આવે છે.")
     , ("mr", "परीक्षेचे वेळापत्रक परीक्षेच्या 2 आठवड्यांपूर्वी कॉलेजच्या वेबसाइटवर प्रकाशित केले जाते. निकाल पूर्ण झाल्यानंतर 30 दिवसांच्या आत जाहीर केले जातात.")
     , ("raj", "परीक्षा कार्यक्रम परीक्षा सूं 2 हफ्ता पैली कॉलेज री वेबसाइट पे छपवावै। परिणाम पूरा होवण रे 30 दिन रे अंदर घोषित करावै।")
     ] }

/-- `knowledge_base["categories"]`, in dict insertion order. -/
def kbCategories : List (String × CategoryData) :=
  [("fees", feesData), ("scholarships", scholarshipsData), ("timetable", timetableData),
   ("admission", admissionData), ("exams", examsData)]

/-- `knowledge_base["greetings"]["keywords"]`. -/
def greetingKeywords : List String :=
  ["hello", "hi", "hey", "namaste", "नमस्ते", "નમસ્તે", "नमस्कार"]

/-- `knowledge_base["greetings"]["responses"]`. -/
def greetingResponses : List (String × String) :=
  [ ("en", "Hello! I'm your campus assistant. I can help you with information about fees, scholarships, timetables, admissions, and exams. How can I help you today?")
  , ("hi", "नमस्ते! मैं आपका कैंपस सहायक हूं। मैं शुल्क, छात्रवृत्ति, समय सारणी, प्रवेश और परीक्षा के बारे में जानकारी दे सकता हूं। आज मैं आपकी कैसे मदद कर सकता हूं?")
  , ("gu", "નમસ્તે! હું તમારો કેમ્પસ સહાયક છું. હું ફી, સ્કોલરશિપ, સમયપત્રક, પ્રવેશ અને પરીક્ષાઓ વિશે માહિતી આપી શકું છું. આજે હું તમને કેવી રીતે મદદ કરી શકું?")
  , ("mr", "नमस्कार! मी तुमचा कॅम्पस सहाय्यक आहे. मी फी, शिष्यवृत्ती, वेळापत्रक, प्रवेश आणि परीक्षांबद्दल माहिती देऊ शकतो. आज मी तुम्हाला कशी मदत करू शकतो?")
  , ("raj", "नमस्ते! मैं थारो कैंपस सहायक हूं। मैं शुल्क, छात्रवृत्ति, समय सारणी, प्रवेश अर परीक्षा रे बारे में जानकारी दे सकूं। आज मैं थारी कैसे मदद कर सकूं?") ]

/-- `_get_fallback_response`: the localized "contact our office" messages. -/
def fallbackResponses : List (String × String) :=
  [ ("en", "I'm not sure about that. Please contact our office during business hours (9 AM - 5 PM) at +91-XXX-XXX-XXXX or email info@college.edu for assistance.")
  , ("hi", "मुझे इसके बारे में यकीन नहीं है। कृपया व्यावसायिक घंटों (सुबह 9 बजे - शाम 5 बजे) के दौरान हमारे कार्यालय से +91-XXX-XXX-XXXX पर संपर्क करें या सहायता के लिए info@college.edu पर ईमेल करें।")
  , ("gu", "મને તેના વિશે ખાતરી નથી. કૃપા કરીને બિઝનેસ અવર્સ (સવારે 9 - સાંજે 5) દરમિયાન અમારી ઓફિસનો સંપર્ક કરો +91-XXX-XXX-XXXX અથવા સહાયતા માટે info@college.edu પર ઈમેલ કરો.")
  , ("mr", "मला त्याबद्दल खात्री नाही. कृपया कार्यालयीन वेळेत (सकाळी 9 - संध्याकाळी 5) आमच्या कार्यालयाशी +91-XXX-XXX-XXXX वर संपर्क साधा किंवा मदतीसाठी info@college.edu वर ईमेल करा.")
  , ("raj", "मने इसके बारे में पक्का नहीं है। कृपया व्यावसायिक समय (सवेरे 9 - सांझ 5) में हमारे कार्यालय सूं +91-XXX-XXX-XXXX पे संपर्क करो या मदद रे लिए info@college.edu पे ईमेल करो।") ]

/-- `_get_fallback_response(language)`:
`fallback_responses.get(language, fallback_responses["en"])`. -/
def fallbackResponse (language : String) : String :=
  match aget fallbackResponses language with
  | some r => r
  | none =>
    match aget fallbackResponses "en" with
    | some r => r
    | none => ""

/-! ### Classification engine (`chatbot_engine.py`) -/

/-- The per-keyword body of `_find_best_match`'s inner loop: the substring
check (score `0.8`) followed by the `SequenceMatcher` similarity check
(counted when above `0.6` and above the current best). -/
def fbmKeywordStep (msgLower : String) (category : String) (st : Option String × ℚ)
    (keyword : String) : Option String × ℚ :=
  let st1 :=
    if containsSub msgLower keyword ∧ st.2 < mkRat 8 10 then (some category, mkRat 8 10) else st
  let sim := smRatio keyword msgLower
  if mkRat 6 10 < sim ∧ st1.2 < sim then (some category, sim) else st1

set_option linter.unusedVariables false

/-- `_find_best_match(message, language)`.  The `language` argument is unused
in the source as well; category iteration order is the knowledge base's
declared order; `None` becomes `"unknown"`. -/
def findBestMatch (message language : String) : String × ℚ :=
  let msgLower := lowerString message
  if greetingKeywords.any (fun k => containsSub msgLower k) then ("greetings", mkRat 9 10)
  else
    let st := kbCategories.foldl
      (fun st c => c.2.keywords.foldl (fbmKeywordStep msgLower c.1) st)
      (none, mkRat 0 1)
    (st.1.getD "unknown", st.2)

/-- `_get_response(category, language)`. -/
def getResponse (category language : String) : String :=
  let responses :=
    if category = "greetings" then some greetingResponses
    else (kbCategories.find? (fun p => p.1 = category)).map (fun p => p.2.responses)
  match responses with
  | none => fallbackResponse language
  | some rs =>
    match aget rs language with
    | some r => r
    | none =>
      match aget rs "en" with
      | some r => r
      | none => "I'm sorry, I don't understand."

/-- The dictionary returned by `process_message`. -/
structure ProcessResult where
  response : String
  confidence : ℚ
  category : String
  needs_human : Bool
  contact : Option Contact
  deriving DecidableEq, Repr

/-- `self.confidence_threshold = 0.6`. -/
def confidenceThreshold : ℚ := mkRat 6 10

/-- `process_message(message, session_id, language)`: classification plus the
low-confidence fallback routing.  The in-memory session-context bookkeeping
the method also performs does not influence any returned field and carries no
claim, so the embedding returns the result dictionary. -/
def processMessage (message language : String) : ProcessResult :=
  let r := findBestMatch message language
  if r.2 < confidenceThreshold then
    { response := fallbackResponse language
      confidence := r.2
      category := r.1
      needs_human := true
      contact := some contactRecord }
  else
    { response := getResponse r.1 language
      confidence := r.2
      category := r.1
      needs_human := false
      contact := none }

/-! ### Language processor (`language_processor.py`) -/

/-- The whitespace characters stripped by Python `str.strip()` (ASCII part). -/
def isPyWhitespace (c : Char) : Bool :=
  [' ', '\t', '\n', '\r', '\x0b', '\x0c'].contains c

/-- Python `text.strip()`: drop leading and trailing whitespace. -/
def pyStrip (s : String) : List Char :=
  ((s.data.dropWhile isPyWhitespace).reverse.dropWhile isPyWhitespace).reverse

/-- `self.language_map`: the supported codes, each mapping to itself. -/
def languageMap : List (String × String) :=
  [("en", "en"), ("hi", "hi"), ("gu", "gu"), ("mr", "mr"), ("raj", "raj")]

/-- One regex of `self.language_patterns`: either a Unicode script-range test
or a whole-word match against signature words. -/
inductive LangPattern where
  | script (lo hi : Nat)
  | words (ws : List String)

/-- True when some character of `text` lies in the code-point range. -/
def hasCharInRange (lo hi : Nat) (text : String) : Bool :=
  text.data.any (fun c => decide (lo ≤ c.toNat) && decide (c.toNat ≤ hi))

/-- Python's `\w` for the scripts appearing in the signature words: ASCII
alphanumerics, underscore, Devanagari and Gujarati blocks. -/
def isWordChar (c : Char) : Bool :=
  c.isAlphanum || c = '_' || (decide (0x900 ≤ c.toNat) && decide (c.toNat ≤ 0x97F)) ||
    (decide (0xA80 ≤ c.toNat) && decide (c.toNat ≤ 0xAFF))

/-- Whether word `w` occurs in `text` at position `i` with `\b` boundaries on
both sides. -/
def wordOccursAt (w text : List Char) (i : Nat) : Bool :=
  decide (w <+: text.drop i) &&
    (decide (i = 0) || !isWordChar (text.getD (i - 1) ' ')) &&
    (decide (text.length ≤ i + w.length) || !isWordChar (text.getD (i + w.length) ' '))

/-- `re.search` of the alternation `\b(w1|…|wn)\b`: some word occurs at some
position with word boundaries.  The signature words contain no cased ASCII,
so the `re.IGNORECASE` flag is inert. -/
def wordListMatches (ws : List String) (text : String) : Bool :=
  ws.any (fun w => (List.range (text.data.length + 1)).any (fun i => wordOccursAt w.data text.data i))

/-- Whether one pattern of `self.language_patterns` matches the text. -/
def patternMatches (p : LangPattern) (text : String) : Bool :=
  match p with
  | .script lo hi => hasCharInRange lo hi text
  | .words ws => wordListMatches ws text

/-- `self.language_patterns`, in dict insertion order. -/
def languagePatterns : List (String × List LangPattern) :=
  [ ("hi", [.script 0x900 0x97F, .words ["क्या", "कैसे", "कब", "क्यों", "कहाँ", "नमस्ते", "धन्यवाद"]])
  , ("gu", [.script 0xA80 0xAFF, .words ["શું", "કેવી", "ક્યારે", "કેમ", "ક્યાં", "નમસ્તે", "ધન્યવાદ"]])
  , ("mr", [.script 0x900 0x97F, .words ["काय", "कसे", "केव्हा", "का", "कुठे", "नमस्कार", "धन्यवाद"]])
  , ("raj", [.script 0x900 0x97F, .words ["के", "कैं", "कद", "क्यूं", "कठै", "नमस्ते", "धन्यवाद"]]) ]

/-- `_pattern_based_detection(text)`: first language (in declaration order)
with a matching pattern, else `None`. -/
def patternBasedDetection (text : String) : Option String :=
  (languagePatterns.find? (fun p => p.2.any (fun pat => patternMatches pat text))).map
    (fun p => p.1)

/-- The static table of `_map_similar_language`. -/
def languageMappings : List (String × String) :=
  [("ne", "hi"), ("bn", "hi"), ("ur", "hi"), ("pa", "hi")]

/-- `_map_similar_language(detected_lang)`. -/
def mapSimilarLanguage (detected : String) : String :=
  match aget languageMappings detected with
  | some l => l
  | none => "en"

/-- `detect_language(text)`.  The `langdetect.detect` call is the parameter
`statDetect`; `.error` is a raised `LangDetectException` (the only exception
the source catches). -/
def detectLanguage (statDetect : String → Except Unit String) (text : String) : String :=
  if text = "" ∨ (pyStrip text).length < 3 then "en"
  else
    match patternBasedDetection text with
    | some l => l
    | none =>
      match statDetect text with
      | .error _ => "en"
      | .ok detected =>
        match aget languageMap detected with
        | some l => l
        | none => mapSimilarLanguage detected

/-! ### Conversation store (`conversation_logger.py`)

SQLite state is modelled relationally: the three tables as lists of rows,
plus the `AUTOINCREMENT` counter.  `TIMESTAMP` and date values are TEXT and
keep SQLite's lexicographic comparison (`String` `<`); the wall clock enters
as explicit `now` / `today` arguments. -/

/-- A row of the `sessions` table. -/
structure SessionRow where
  session_id : String
  created_at : String
  updated_at : String
  message_count : Nat
  languages_used : List String
  deriving DecidableEq, Repr

/-- A row of the `conversations` table. -/
structure ConversationRow where
  id : Nat
  session_id : String
  timestamp : String
  user_message : String
  bot_response : String
  language : String
  confidence : ℚ
  category : Option String
  needs_human : Bool
  deriving DecidableEq, Repr

/-- A row of the `daily_stats` table. -/
structure DailyStatRow where
  date : String
  total_conversations : Nat
  total_sessions : Nat
  languages_breakdown : List (String × Nat)
  categories_breakdown : List (String × Nat)
  avg_confidence : ℚ
  human_handoff_count : Nat
  deriving DecidableEq, Repr

/-- The database state. -/
structure Store where
  sessions : List SessionRow
  conversations : List ConversationRow
  daily_stats : List DailyStatRow
  next_id : Nat
  deriving DecidableEq, Repr

/-- The freshly initialised database (`init_database` creates empty tables;
`AUTOINCREMENT` ids start at 1). -/
def emptyStore : Store :=
  { sessions := [], conversations := [], daily_stats := [], next_id := 1 }

/-- `d.get(k, 0) + 1` followed by `d[k] = …` on a counter dict. -/
def bump (m : List (String × Nat)) (k : String) : List (String × Nat) :=
  if m.any (fun p => p.1 = k) then m.map (fun p => if p.1 = k then (p.1, p.2 + 1) else p)
  else m ++ [(k, 1)]

/-- The JSON text of a string array as stored in `languages_used`
(`json.dumps` for the initial singleton, SQLite `json_insert` afterwards;
the `LIKE` test below only searches for the bare code, which the separator
variants do not affect). -/
def jsonElems : List String → List Char
  | [] => []
  | [x] => '"' :: x.data ++ ['"']
  | x :: xs => '"' :: x.data ++ '"' :: ',' :: jsonElems xs

/-- The serialized JSON array, brackets included. -/
def jsonArrayText (l : List String) : List Char := '[' :: jsonElems l ++ [']']

/-- SQLite `t LIKE '%' || p || '%'`: substring containment, ASCII
case-insensitive. -/
def likeContains (t p : List Char) : Bool :=
  decide ((p.map Char.toLower) <:+: (t.map Char.toLower))

/-- The `INSERT … ON CONFLICT(session_id) DO UPDATE` statement of
`log_conversation`: insert a fresh session row, or bump the counters of the
existing one; the language is appended only when the `LIKE` test on the
serialized `languages_used` fails. -/
def upsertSession (sessions : List SessionRow) (now session_id language : String) :
    List SessionRow :=
  if sessions.any (fun r => r.session_id = session_id) then
    sessions.map (fun r =>
      if r.session_id = session_id then
        { r with
          updated_at := now
          message_count := r.message_count + 1
          languages_used :=
            if likeContains (jsonArrayText r.languages_used) language.data then r.languages_used
            else r.languages_used ++ [language] }
      else r)
  else
    sessions ++
      [{ session_id := session_id, created_at := now, updated_at := now, message_count := 1,
         languages_used := [language] }]

/-- The first transaction of `log_conversation` (first `with sqlite3.connect`
block): session upsert plus conversation insert, committed together. -/
def logTurnPhase1 (s : Store) (now session_id user_message bot_response language : String)
    (confidence : ℚ) (category : Option String) (needs_human : Bool) : Store :=
  { s with
    sessions := upsertSession s.sessions now session_id language
    conversations := s.conversations ++
      [{ id := s.next_id, session_id := session_id, timestamp := now,
         user_message := user_message, bot_response := bot_response, language := language,
         confidence := confidence, category := category, needs_human := needs_human }]
    next_id := s.next_id + 1 }

/-- `_update_daily_stats`: the second transaction (its own connection and
commit).  Python's `if category:` is falsy for both `None` and `""`. -/
def updateDailyStats (s : Store) (today language : String) (category : Option String)
    (confidence : ℚ) (needs_human : Bool) : Store :=
  if s.daily_stats.any (fun d => d.date = today) then
    { s with
      daily_stats := s.daily_stats.map (fun d =>
        if d.date = today then
          { d with
            total_conversations := d.total_conversations + 1
            languages_breakdown := bump d.languages_breakdown language
            categories_breakdown :=
              match category with
              | some c => if c = "" then d.categories_breakdown else bump d.categories_breakdown c
              | none => d.categories_breakdown
            avg_confidence :=
              qdiv (qadd (qmul d.avg_confidence (d.total_conversations : ℚ)) confidence)
                ((d.total_conversations + 1 : Nat) : ℚ)
            human_handoff_count := d.human_handoff_count + (if needs_human then 1 else 0) }
        else d) }
  else
    { s with
      daily_stats := s.daily_stats ++
        [{ date := today, total_conversations := 1, total_sessions := 0,
           languages_breakdown := [(language, 1)],
           categories_breakdown :=
             match category with
             | some c => if c = "" then [] else [(c, 1)]
             | none => [],
           avg_confidence := confidence,
           human_handoff_count := if needs_human then 1 else 0 }] }

/-- `log_conversation`: the first transaction followed by the separate
`_update_daily_stats` transaction. -/
def logConversation (s : Store) (now today session_id user_message bot_response language : String)
    (confidence : ℚ) (category : Option String) (needs_human : Bool) : Store :=
  updateDailyStats
    (logTurnPhase1 s now session_id user_message bot_response language confidence category
      needs_human)
    today language category confidence needs_human

/-- The store states a concurrent reader can observe around one
`log_conversation` call: before either commit, between the two commits, and
after both. -/
def logObservableStates (s : Store)
    (now today session_id user_message bot_response language : String) (confidence : ℚ)
    (category : Option String) (needs_human : Bool) : List Store :=
  [ s
  , logTurnPhase1 s now session_id user_message bot_response language confidence category
      needs_human
  , logConversation s now today session_id user_message bot_response language confidence category
      needs_human ]

/-- `cleanup_old_logs`: delete conversations with `timestamp < cutoff`, then
sessions with no remaining conversation, then daily stats with
`date < cutoff_date`. -/
def cleanupOldLogs (s : Store) (cutoffTs cutoffDate : String) : Store :=
  let convs := s.conversations.filter (fun c => !decide (c.timestamp < cutoffTs))
  { s with
    conversations := convs
    sessions := s.sessions.filter (fun r => convs.any (fun c => c.session_id = r.session_id))
    daily_stats := s.daily_stats.filter (fun d => !decide (d.date < cutoffDate)) }

/-- The mutating store operations (the read-only queries do not change the
state). -/
inductive Op where
  | log (now today session_id user_message bot_response language : String) (confidence : ℚ)
      (category : Option String) (needs_human : Bool)
  | cleanup (cutoffTs cutoffDate : String)

/-- Apply one operation. -/
def applyOp (s : Store) : Op → Store
  | .log now today session_id user_message bot_response language confidence category
      needs_human =>
    logConversation s now today session_id user_message bot_response language confidence category
      needs_human
  | .cleanup cutoffTs cutoffDate => cleanupOldLogs s cutoffTs cutoffDate

/-- Apply a sequence of operations, oldest first. -/
def applyOps (s : Store) (ops : List Op) : Store := ops.foldl applyOp s

/-! ### `/chat` endpoint (`BACKEND/main.py`) -/

/-- The `ChatResponse` pydantic model. -/
structure ChatOut where
  response : String
  detected_language : String
  session_id : String
  confidence : ℚ
  needs_human : Bool
  suggested_contact : Option Contact
  deriving DecidableEq, Repr

/-- The `chat` handler after classification has produced `pr`: it awaits
`log_conversation` (outcome `logOutcome`; `.error e` is a raised exception
with message `e`) and only then builds the response; any exception reaches
the handler's `except` clause, which raises `HTTPException(500, "Chat
processing error: …")` instead of returning the result. -/
def chatEndpoint (pr : ProcessResult) (detected_lang session_id : String)
    (logOutcome : Except String Unit) : Except String ChatOut :=
  match logOutcome with
  | .error e => .error ("Chat processing error: " ++ e)
  | .ok _ =>
    .ok { response := pr.response, detected_language := detected_lang,
          session_id := session_id, confidence := pr.confidence,
          needs_human := pr.needs_human, suggested_contact := pr.contact }

/-! ### Auxiliary notions used by the specification statements -/

/-- The closed set of supported language codes (§6 of the spec). -/
def supportedCodes : List String := ["en", "hi", "gu", "mr", "raj"]

/-- Modelled from the spec's wording for the short-input rule of `detect`:
the number of non-whitespace characters of the text ("fewer than 3
non-whitespace characters").  The source instead tests
`len(text.strip()) < 3`; this definition exists to compare the two. -/
def specNonWhitespaceCount (s : String) : Nat :=
  (s.data.filter (fun c => !isPyWhitespace c)).length

/-- The argument bundle of one `log_conversation` call (the calendar date is
passed separately, since the claims quantify over calls sharing one date). -/
structure LogArgs where
  now : String
  session_id : String
  user_message : String
  bot_response : String
  language : String
  confidence : ℚ
  category : Option String
  needs_human : Bool

/-- Run a sequence of `log_conversation` calls that all land on the same
calendar date `today`. -/
def applyLogs (s : Store) (today : String) (l : List LogArgs) : Store :=
  l.foldl
    (fun st a =>
      logConversation st a.now today a.session_id a.user_message a.bot_response a.language
        a.confidence a.category a.needs_human)
    s

/-- Two concrete logging calls on one date (confidences 0.8 and 0.4), the
example of the spec's §8. -/
def c2WitnessLogs : List LogArgs :=
  [ { now := "2024-01-01 10:00:00", session_id := "sess1",
      user_message := "What is the fee deadline?", bot_response := "resp", language := "en",
      confidence := mkRat 8 10, category := some "fees", needs_human := false }
  , { now := "2024-01-01 11:00:00", session_id := "sess1", user_message := "more",
      bot_response := "resp2", language := "en", confidence := mkRat 4 10,
      category := some "fees", needs_human := false } ]

/-- The daily-stats row those two calls produce. -/
def c2WitnessRow : DailyStatRow :=
  { date := "2024-01-01", total_conversations := 2, total_sessions := 0,
    languages_breakdown := [("en", 2)], categories_breakdown := [("fees", 2)],
    avg_confidence := mkRat 3 5, human_handoff_count := 0 }

/-- Running state of the daily aggregate for date `today` after `n` turns
with confidence sum `q`: no row when `n = 0`, otherwise every row for the
date carries turn count `n` and average `q / n`. -/
def dayInv (today : String) (n : Nat) (q : ℚ) (s : Store) : Prop :=
  (n = 0 → q = 0 ∧ ∀ d ∈ s.daily_stats, d.date ≠ today) ∧
  (n ≠ 0 →
    (∃ d ∈ s.daily_stats, d.date = today) ∧
    ∀ d ∈ s.daily_stats, d.date = today →
      d.total_conversations = n ∧ d.avg_confidence * (n : ℚ) = q)

/-! ## Theorems -/

/-! ### The kernel-computable `ℚ` operations agree with the field operations -/

theorem qadd_eq (a b : ℚ) : qadd a b = a + b := (Rat.add_def' a b).symm

theorem qmul_eq (a b : ℚ) : qmul a b = a * b := by
  rw [qmul, Rat.mul_def, Rat.normalize_eq_mkRat]

theorem qdiv_eq (a b : ℚ) : qdiv a b = a / b := by
  rcases eq_or_ne b 0 with hb | hb
  · subst hb
    simp [qdiv]
  · have h1 : (a.den : ℚ) ≠ 0 := by exact_mod_cast a.den_ne_zero
    have h3 : (b.num : ℚ) ≠ 0 := by exact_mod_cast Rat.num_ne_zero.2 hb
    have ha : (a.num : ℚ) = a * (a.den : ℚ) := (div_eq_iff h1).1 (Rat.num_div_den a)
    have hb2 : (b.den : ℚ) ≠ 0 := by exact_mod_cast b.den_ne_zero
    have hb' : (b.num : ℚ) = b * (b.den : ℚ) := (div_eq_iff hb2).1 (Rat.num_div_den b)
    rw [qdiv, Rat.divInt_eq_div]
    push_cast
    rw [div_eq_div_iff (mul_ne_zero h1 h3) hb]
    rw [ha, hb']
    ring

theorem mkRat_eq_point8 : mkRat 8 10 = (0.8 : ℚ) := by
  rw [Rat.mkRat_eq_divInt, Rat.divInt_eq_div]
  norm_num

theorem mkRat_eq_point9 : mkRat 9 10 = (0.9 : ℚ) := by
  rw [Rat.mkRat_eq_divInt, Rat.divInt_eq_div]
  norm_num

theorem mkRat_eq_point6 : mkRat 6 10 = (0.6 : ℚ) := by
  rw [Rat.mkRat_eq_divInt, Rat.divInt_eq_div]
  norm_num

theorem confidenceThreshold_eq : confidenceThreshold = (0.6 : ℚ) := mkRat_eq_point6

theorem mkRat_zero_one : mkRat 0 1 = (0 : ℚ) := by
  rw [Rat.mkRat_eq_divInt, Rat.divInt_eq_div]
  norm_num

/-! ### Bounds on the `SequenceMatcher` ratio -/

theorem runLenEnd_le_left (a b : List Char) (alo blo : Nat) :
    ∀ i j, runLenEnd a b alo blo i j ≤ i + 1 - alo := by
  intro i
  induction i with
  | zero =>
    intro j
    rw [runLenEnd]
    split
    · rename_i h
      simp only [rleCond, Bool.and_eq_true, decide_eq_true_eq] at h
      omega
    · omega
  | succ i ih =>
    intro j
    rw [runLenEnd]
    split
    · rename_i h
      simp only [rleCond, Bool.and_eq_true, decide_eq_true_eq] at h
      split
      · omega
      · rename_i h2
        have := ih (j - 1)
        omega
    · omega

theorem runLenEnd_le_right (a b : List Char) (alo blo : Nat) :
    ∀ i j, runLenEnd a b alo blo i j ≤ j + 1 - blo := by
  intro i
  induction i with
  | zero =>
    intro j
    rw [runLenEnd]
    split
    · rename_i h
      simp only [rleCond, Bool.and_eq_true, decide_eq_true_eq] at h
      omega
    · omega
  | succ i ih =>
    intro j
    rw [runLenEnd]
    split
    · rename_i h
      simp only [rleCond, Bool.and_eq_true, decide_eq_true_eq] at h
      split
      · omega
      · rename_i h2
        have := ih (j - 1)
        omega
    · omega

/-- Membership in the scanned index pairs gives the window bounds. -/
theorem mem_flmPairs {alo ahi blo bhi : Nat} {p : Nat × Nat}
    (h : p ∈ flmPairs alo ahi blo bhi) :
    alo ≤ p.1 ∧ p.1 < ahi ∧ blo ≤ p.2 ∧ p.2 < bhi := by
  simp only [flmPairs, List.mem_flatten, List.mem_map] at h
  obtain ⟨l, ⟨i, hi, rfl⟩, hp⟩ := h
  simp only [List.mem_map] at hp
  obtain ⟨j, hj, rfl⟩ := hp
  rw [List.mem_range'] at hi hj
  obtain ⟨k, hk, rfl⟩ := hi
  obtain ⟨k', hk', rfl⟩ := hj
  omega

/-- Fold invariant for the `find_longest_match` scan: the best block stays
inside the windows. -/
theorem flmFold_bounds (a b : List Char) (alo ahi blo bhi : Nat) :
    ∀ (l : List (Nat × Nat)) (st : Nat × Nat × Nat),
      (∀ p ∈ l, alo ≤ p.1 ∧ p.1 < ahi ∧ blo ≤ p.2 ∧ p.2 < bhi) →
      (st.2.2 = 0 ∨ (alo ≤ st.1 ∧ st.1 + st.2.2 ≤ ahi ∧ blo ≤ st.2.1 ∧ st.2.1 + st.2.2 ≤ bhi)) →
      ((l.foldl (flmStep a b alo blo) st).2.2 = 0 ∨
        (alo ≤ (l.foldl (flmStep a b alo blo) st).1 ∧
          (l.foldl (flmStep a b alo blo) st).1 + (l.foldl (flmStep a b alo blo) st).2.2 ≤ ahi ∧
          blo ≤ (l.foldl (flmStep a b alo blo) st).2.1 ∧
          (l.foldl (flmStep a b alo blo) st).2.1 + (l.foldl (flmStep a b alo blo) st).2.2 ≤ bhi)) := by
  intro l
  induction l with
  | nil => intro st _ hst; exact hst
  | cons p l ih =>
    intro st hl hst
    rw [List.foldl_cons]
    apply ih _ (fun q hq => hl q (List.mem_cons_of_mem p hq))
    have hb := hl p (List.mem_cons_self p l)
    unfold flmStep
    dsimp only
    split
    · rename_i hlt
      right
      have hk1 := runLenEnd_le_left a b alo blo p.1 p.2
      have hk2 := runLenEnd_le_right a b alo blo p.1 p.2
      simp only
      omega
    · exact hst

/-- The block found by `findLongestMatch` lies inside the windows. -/
theorem findLongestMatch_bounds (a b : List Char) (alo ahi blo bhi : Nat) :
    (findLongestMatch a b alo ahi blo bhi).2.2 = 0 ∨
      (alo ≤ (findLongestMatch a b alo ahi blo bhi).1 ∧
        (findLongestMatch a b alo ahi blo bhi).1 + (findLongestMatch a b alo ahi blo bhi).2.2 ≤
          ahi ∧
        blo ≤ (findLongestMatch a b alo ahi blo bhi).2.1 ∧
        (findLongestMatch a b alo ahi blo bhi).2.1 + (findLongestMatch a b alo ahi blo bhi).2.2 ≤
          bhi) := by
  unfold findLongestMatch
  exact flmFold_bounds a b alo ahi blo bhi _ _ (fun p hp => mem_flmPairs hp) (Or.inl rfl)

/-- The total matching-block size is at most the `a`-window size. -/
theorem matchingBlocksSum_le_left (a b : List Char) :
    ∀ fuel alo ahi blo bhi, matchingBlocksSum a b fuel alo ahi blo bhi ≤ ahi - alo := by
  intro fuel
  induction fuel with
  | zero => intro alo ahi blo bhi; simp [matchingBlocksSum]
  | succ fuel ih =>
    intro alo ahi blo bhi
    rw [matchingBlocksSum]
    rcases findLongestMatch_bounds a b alo ahi blo bhi with h0 | hb
    · simp only [h0]
      simp
    · split
      · omega
      · have i1 := ih alo (findLongestMatch a b alo ahi blo bhi).1 blo
          (findLongestMatch a b alo ahi blo bhi).2.1
        have i2 := ih ((findLongestMatch a b alo ahi blo bhi).1 +
            (findLongestMatch a b alo ahi blo bhi).2.2) ahi
          ((findLongestMatch a b alo ahi blo bhi).2.1 +
            (findLongestMatch a b alo ahi blo bhi).2.2) bhi
        omega

/-- The total matching-block size is at most the `b`-window size. -/
theorem matchingBlocksSum_le_right (a b : List Char) :
    ∀ fuel alo ahi blo bhi, matchingBlocksSum a b fuel alo ahi blo bhi ≤ bhi - blo := by
  intro fuel
  induction fuel with
  | zero => intro alo ahi blo bhi; simp [matchingBlocksSum]
  | succ fuel ih =>
    intro alo ahi blo bhi
    rw [matchingBlocksSum]
    rcases findLongestMatch_bounds a b alo ahi blo bhi with h0 | hb
    · simp only [h0]
      simp
    · split
      · omega
      · have i1 := ih alo (findLongestMatch a b alo ahi blo bhi).1 blo
          (findLongestMatch a b alo ahi blo bhi).2.1
        have i2 := ih ((findLongestMatch a b alo ahi blo bhi).1 +
            (findLongestMatch a b alo ahi blo bhi).2.2) ahi
          ((findLongestMatch a b alo ahi blo bhi).2.1 +
            (findLongestMatch a b alo ahi blo bhi).2.2) bhi
        omega

theorem smRatio_nonneg (a b : String) : 0 ≤ smRatio a b := by
  rw [smRatio]
  split
  · norm_num
  · rw [qdiv_eq, qmul_eq]
    positivity

theorem smRatio_le_one (a b : String) : smRatio a b ≤ 1 := by
  rw [smRatio]
  split
  · exact le_refl 1
  · rename_i hT
    rw [qdiv_eq, qmul_eq]
    have hm1 := matchingBlocksSum_le_left a.data b.data a.data.length 0 a.data.length 0
      b.data.length
    have hm2 := matchingBlocksSum_le_right a.data b.data a.data.length 0 a.data.length 0
      b.data.length
    rw [div_le_one (by positivity)]
    push_cast
    have : 2 * matchingBlocksSum a.data b.data a.data.length 0 a.data.length 0 b.data.length ≤
        a.data.length + b.data.length := by omega
    exact_mod_cast this

/-! ### Score invariant of `_find_best_match` -/

/-- One keyword step preserves the score invariant: the state is either the
initial `(None, 0.0)` or carries a score in `(0.6, 1]`. -/
theorem fbmKeywordStep_inv (ml cat : String) (st : Option String × ℚ) (kw : String)
    (h : st = (none, mkRat 0 1) ∨ (mkRat 6 10 < st.2 ∧ st.2 ≤ 1)) :
    fbmKeywordStep ml cat st kw = (none, mkRat 0 1) ∨
      (mkRat 6 10 < (fbmKeywordStep ml cat st kw).2 ∧ (fbmKeywordStep ml cat st kw).2 ≤ 1) := by
  have hsim1 := smRatio_le_one kw ml
  unfold fbmKeywordStep
  dsimp only
  split
  · split
    · rename_i hcond
      right
      exact ⟨hcond.1, hsim1⟩
    · right
      constructor
      · rw [mkRat_eq_point6, mkRat_eq_point8]
        norm_num
      · rw [mkRat_eq_point8]
        norm_num
  · split
    · rename_i hcond
      right
      exact ⟨hcond.1, hsim1⟩
    · exact h

/-- The keyword fold of one category preserves the score invariant. -/
theorem fbmKeywordFold_inv (ml cat : String) (l : List String) :
    ∀ st : Option String × ℚ,
      (st = (none, mkRat 0 1) ∨ (mkRat 6 10 < st.2 ∧ st.2 ≤ 1)) →
      (l.foldl (fbmKeywordStep ml cat) st = (none, mkRat 0 1) ∨
        (mkRat 6 10 < (l.foldl (fbmKeywordStep ml cat) st).2 ∧
          (l.foldl (fbmKeywordStep ml cat) st).2 ≤ 1)) := by
  induction l with
  | nil => intro st h; exact h
  | cons kw l ih =>
    intro st h
    rw [List.foldl_cons]
    exact ih _ (fbmKeywordStep_inv ml cat st kw h)

/-- The category fold preserves the score invariant. -/
theorem fbmCatFold_inv (ml : String) (cats : List (String × CategoryData)) :
    ∀ st : Option String × ℚ,
      (st = (none, mkRat 0 1) ∨ (mkRat 6 10 < st.2 ∧ st.2 ≤ 1)) →
      (cats.foldl (fun st c => c.2.keywords.foldl (fbmKeywordStep ml c.1) st) st =
          (none, mkRat 0 1) ∨
        (mkRat 6 10 <
            (cats.foldl (fun st c => c.2.keywords.foldl (fbmKeywordStep ml c.1) st) st).2 ∧
          (cats.foldl (fun st c => c.2.keywords.foldl (fbmKeywordStep ml c.1) st) st).2 ≤ 1)) := by
  induction cats with
  | nil => intro st h; exact h
  | cons c cats ih =>
    intro st h
    rw [List.foldl_cons]
    exact ih _ (fbmKeywordFold_inv ml c.1 c.2.keywords st h)

/-- `_find_best_match` either falls through with `("unknown", 0.0)` or
returns a score in `(0.6, 1]` (the greeting short-circuit returns `0.9`). -/
theorem findBestMatch_cases (message language : String) :
    findBestMatch message language = ("unknown", mkRat 0 1) ∨
      (mkRat 6 10 < (findBestMatch message language).2 ∧
        (findBestMatch message language).2 ≤ 1) := by
  unfold findBestMatch
  dsimp only
  split
  · right
    constructor
    · rw [mkRat_eq_point6, mkRat_eq_point9]
      norm_num
    · rw [mkRat_eq_point9]
      norm_num
  · rcases fbmCatFold_inv (lowerString message) kbCategories (none, mkRat 0 1) (Or.inl rfl)
      with h | h
    · rw [h]
      left
      rfl
    · right
      exact h

/-- C3: for every processed message the returned confidence lies in `[0, 1]`,
and whenever it is below the 0.6 threshold the result flags human handoff,
carries the fallback category `"unknown"`, returns the localized
"contact our office" message, and attaches the static contact record. -/
theorem claim_C3 (message language : String) :
    0 ≤ (processMessage message language).confidence ∧
    (processMessage message language).confidence ≤ 1 ∧
    ((processMessage message language).confidence < confidenceThreshold →
      (processMessage message language).needs_human = true ∧
      (processMessage message language).category = "unknown" ∧
      (processMessage message language).response = fallbackResponse language ∧
      (processMessage message language).contact = some contactRecord) := by
  unfold processMessage
  dsimp only
  rcases findBestMatch_cases message language with h | h
  · rw [h]
    dsimp only
    have hlt : mkRat 0 1 < confidenceThreshold := by
      rw [mkRat_zero_one, confidenceThreshold_eq]
      norm_num
    rw [if_pos hlt]
    refine ⟨by rw [mkRat_zero_one], by rw [mkRat_zero_one]; norm_num, fun _ => ⟨rfl, rfl, rfl, rfl⟩⟩
  · have hge : ¬ (findBestMatch message language).2 < confidenceThreshold := by
      rw [confidenceThreshold]
      exact not_lt.2 (le_of_lt h.1)
    rw [if_neg hge]
    have h06 : (0 : ℚ) ≤ mkRat 6 10 := by
      rw [mkRat_eq_point6]
      norm_num
    exact ⟨le_trans h06 (le_of_lt h.1), h.2, fun hc => absurd hc hge⟩

/-- C3 witness: the gibberish-free empty message scores `0`, which is below
the threshold, so the fallback route is taken. -/
theorem claim_C3_witness :
    (processMessage "" "en").needs_human = true ∧
    (processMessage "" "en").category = "unknown" ∧
    (processMessage "" "en").response = fallbackResponse "en" ∧
    (processMessage "" "en").contact = some contactRecord :=
  (claim_C3 "" "en").2.2 (by decide)

/-! ### C4: the greeting short-circuit -/

/-- C4 counterexample: the message `"Hello"` contains the greeting keyword
`"hello"` in its lower-cased text, yet the returned category is the string
`"greetings"`, not `"greeting"` as the claim states. -/
theorem claim_C4_counterexample :
    containsSub (lowerString "Hello") "hello" = true ∧
    (processMessage "Hello" "en").category ≠ "greeting" := by
  constructor
  · decide
  · decide

/-- C4 (amended): any message containing a greeting keyword as a substring of
its lower-cased text is classified as category `"greetings"` (the source's
name for the greeting category) with confidence exactly `0.9`, regardless of
the other categories' keywords, which are never scored. -/
theorem claim_C4 (message language : String)
    (h : ∃ k ∈ greetingKeywords, containsSub (lowerString message) k = true) :
    (processMessage message language).category = "greetings" ∧
    (processMessage message language).confidence = (0.9 : ℚ) := by
  have hfbm : findBestMatch message language = ("greetings", mkRat 9 10) := by
    unfold findBestMatch
    dsimp only
    rw [if_pos]
    rw [List.any_eq_true]
    obtain ⟨k, hk, hc⟩ := h
    exact ⟨k, hk, hc⟩
  have h96 : ¬ mkRat 9 10 < confidenceThreshold := by
    rw [confidenceThreshold_eq, mkRat_eq_point9]
    norm_num
  unfold processMessage
  rw [hfbm]
  dsimp only
  rw [if_neg h96]
  exact ⟨rfl, mkRat_eq_point9⟩

/-- C4 witness: the plain `"hello"` message. -/
theorem claim_C4_witness :
    (processMessage "hello" "en").category = "greetings" ∧
    (processMessage "hello" "en").confidence = (0.9 : ℚ) :=
  claim_C4 "hello" "en" ⟨"hello", by decide, by decide⟩

/-! ### C5: behaviour of the `/chat` handler on a logging failure -/

/-- C5 counterexample: when logging fails after a successful classification,
the handler returns an HTTP 500 error and not the classification result — the
response is absent from the outcome. -/
theorem claim_C5_counterexample :
    chatEndpoint
        { response := "Hello there", confidence := mkRat 9 10, category := "greetings",
          needs_human := false, contact := none }
        "en" "sess1" (Except.error "disk full") =
      Except.error "Chat processing error: disk full" ∧
    (chatEndpoint
        { response := "Hello there", confidence := mkRat 9 10, category := "greetings",
          needs_human := false, contact := none }
        "en" "sess1" (Except.error "disk full")).toOption = none :=
  ⟨rfl, rfl⟩

/-- C5 (amended): a store failure is surfaced — `log_conversation` propagates
the exception and the handler turns it into the HTTP 500 error
`"Chat processing error: …"` — but the already-computed classification result
is then NOT returned to the end user; it is returned only when logging
succeeds. -/
theorem claim_C5 (pr : ProcessResult) (dl sid e : String) :
    chatEndpoint pr dl sid (Except.error e) =
      Except.error ("Chat processing error: " ++ e) ∧
    chatEndpoint pr dl sid (Except.ok ()) =
      Except.ok
        { response := pr.response, detected_language := dl, session_id := sid,
          confidence := pr.confidence, needs_human := pr.needs_human,
          suggested_contact := pr.contact } :=
  ⟨rfl, rfl⟩

/-! ### C7: totality of `detect_language` -/

/-- A pattern hit names one of the four regional languages, all supported. -/
theorem patternBasedDetection_mem (text : String) (l : String)
    (h : patternBasedDetection text = some l) : l ∈ supportedCodes := by
  unfold patternBasedDetection at h
  obtain ⟨pr, hfind, rfl⟩ := Option.map_eq_some'.1 h
  have hmem := List.mem_of_find?_eq_some hfind
  simp only [languagePatterns, List.mem_cons, List.not_mem_nil, or_false] at hmem
  rcases hmem with rfl | rfl | rfl | rfl <;> decide

/-- A hit in `language_map` yields a supported code. -/
theorem aget_languageMap_mem (d l : String) (h : aget languageMap d = some l) :
    l ∈ supportedCodes := by
  unfold aget at h
  obtain ⟨pr, hfind, rfl⟩ := Option.map_eq_some'.1 h
  have hmem := List.mem_of_find?_eq_some hfind
  simp only [languageMap, List.mem_cons, List.not_mem_nil, or_false] at hmem
  rcases hmem with rfl | rfl | rfl | rfl | rfl <;> decide

/-- The similar-language table maps everything into the supported set. -/
theorem mapSimilarLanguage_mem (d : String) : mapSimilarLanguage d ∈ supportedCodes := by
  unfold mapSimilarLanguage
  rcases haget : aget languageMappings d with _ | l
  · decide
  · unfold aget at haget
    obtain ⟨pr, hfind, rfl⟩ := Option.map_eq_some'.1 haget
    have hmem := List.mem_of_find?_eq_some hfind
    simp only [languageMappings, List.mem_cons, List.not_mem_nil, or_false] at hmem
    rcases hmem with rfl | rfl | rfl | rfl <;> decide

/-- C7 counterexample: `"a b"` has only 2 non-whitespace characters, yet its
stripped length is 3, so the short-input guard does not fire; when the
statistical detector guesses `"hi"` the function returns `"hi"`, not the
default code. -/
theorem claim_C7_counterexample :
    specNonWhitespaceCount "a b" < 3 ∧
    detectLanguage (fun _ => Except.ok "hi") "a b" = "hi" ∧
    ("hi" : String) ≠ "en" :=
  ⟨by decide, by decide, by decide⟩

/-- C7 (amended): `detect_language` is total and deterministic and always
returns a supported code; every input whose STRIPPED text is shorter than 3
characters (in particular `""`, `" "`, `"ab"`) yields the default `"en"`; and
a `LangDetectException` from the statistical step (when no pattern matched)
also yields `"en"`.  The source's guard is `len(text.strip()) < 3`, not a
count of non-whitespace characters. -/
theorem claim_C7 (sd : String → Except Unit String) (text : String) :
    detectLanguage sd text ∈ supportedCodes ∧
    ((pyStrip text).length < 3 → detectLanguage sd text = "en") ∧
    (patternBasedDetection text = none → sd text = Except.error () →
      detectLanguage sd text = "en") := by
  by_cases hshort : text = "" ∨ (pyStrip text).length < 3
  · rw [detectLanguage, if_pos hshort]
    exact ⟨by decide, fun _ => rfl, fun _ _ => rfl⟩
  · rw [detectLanguage, if_neg hshort]
    refine ⟨?_, fun hlen => absurd (Or.inr hlen) hshort, fun hpat hsd => by rw [hpat, hsd]⟩
    rcases hpat : patternBasedDetection text with _ | l
    · rcases hsd : sd text with e | d
      · simp only [hpat, hsd]
        decide
      · rcases haget : aget languageMap d with _ | l
        · simp only [hpat, hsd, haget]
          exact mapSimilarLanguage_mem d
        · simp only [hpat, hsd, haget]
          exact aget_languageMap_mem d l haget
    · simp only [hpat]
      exact patternBasedDetection_mem text l hpat

/-- C7 witness: concrete instances of the amended guarantees. -/
theorem claim_C7_witness :
    detectLanguage (fun _ => Except.error ()) "ab" ∈ supportedCodes ∧
    detectLanguage (fun _ => Except.error ()) "ab" = "en" ∧
    detectLanguage (fun _ => Except.error ()) "hello there" = "en" :=
  ⟨(claim_C7 (fun _ => Except.error ()) "ab").1,
   (claim_C7 (fun _ => Except.error ()) "ab").2.1 (by decide),
   (claim_C7 (fun _ => Except.error ()) "hello there").2.2 (by decide) rfl⟩

/-! ### C9: retention cleanup -/

/-- C9: `cleanup_old_logs` keeps exactly the conversations at or after the
cutoff timestamp, exactly the sessions that still own a remaining
conversation, and exactly the daily stats at or after the cutoff date —
nothing else is touched. -/
theorem claim_C9 (s : Store) (cutoffTs cutoffDate : String) :
    (∀ c : ConversationRow,
      c ∈ (cleanupOldLogs s cutoffTs cutoffDate).conversations ↔
        c ∈ s.conversations ∧ ¬c.timestamp < cutoffTs) ∧
    (∀ r : SessionRow,
      r ∈ (cleanupOldLogs s cutoffTs cutoffDate).sessions ↔
        r ∈ s.sessions ∧
          ∃ c ∈ (cleanupOldLogs s cutoffTs cutoffDate).conversations,
            c.session_id = r.session_id) ∧
    (∀ d : DailyStatRow,
      d ∈ (cleanupOldLogs s cutoffTs cutoffDate).daily_stats ↔
        d ∈ s.daily_stats ∧ ¬d.date < cutoffDate) := by
  refine ⟨fun c => ?_, fun r => ?_, fun d => ?_⟩
  · simp [cleanupOldLogs, List.mem_filter]
  · simp only [cleanupOldLogs, List.mem_filter, List.any_eq_true, Bool.and_eq_true,
      decide_eq_true_eq, Bool.not_eq_true', decide_eq_false_iff_not]
  · simp [cleanupOldLogs, List.mem_filter]

/-! ### C10: `total_sessions` is never written -/

/-- Each mutating operation keeps every `total_sessions` field at `0`. -/
theorem applyOp_total_sessions (s : Store) (op : Op)
    (h : ∀ d ∈ s.daily_stats, d.total_sessions = 0) :
    ∀ d ∈ (applyOp s op).daily_stats, d.total_sessions = 0 := by
  cases op with
  | log now today sid um br lang conf cat nh =>
    intro d hd
    unfold applyOp logConversation updateDailyStats logTurnPhase1 at hd
    dsimp only at hd
    split at hd
    · obtain ⟨d0, hd0, rfl⟩ := List.mem_map.1 hd
      by_cases hdate : d0.date = today
      · simp only [hdate, if_pos]
        exact h d0 hd0
      · simp only [hdate, if_neg, ite_false]
        exact h d0 hd0
    · rcases List.mem_append.1 hd with hmem | hmem
      · exact h d hmem
      · rw [List.mem_singleton.1 hmem]
  | cleanup ct cd =>
    intro d hd
    unfold applyOp cleanupOldLogs at hd
    dsimp only at hd
    exact h d (List.mem_filter.1 hd).1

/-- C10: in every store state reachable by logging and cleanup operations
from the fresh database, every `daily_stats` row has `total_sessions = 0`:
the lazily created row initialises it to `0` and no operation updates it. -/
theorem claim_C10 (ops : List Op) :
    ∀ d ∈ (applyOps emptyStore ops).daily_stats, d.total_sessions = 0 := by
  suffices H : ∀ (ops : List Op) (s : Store), (∀ d ∈ s.daily_stats, d.total_sessions = 0) →
      ∀ d ∈ (applyOps s ops).daily_stats, d.total_sessions = 0 by
    refine H ops emptyStore ?_
    intro d hd
    simp [emptyStore] at hd
  intro ops
  induction ops with
  | nil => intro s h; exact h
  | cons op ops ih =>
    intro s h
    exact ih _ (applyOp_total_sessions s op h)

/-- C10 witness: the row created by one logged turn. -/
theorem claim_C10_witness :
    ({ date := "2024-01-01", total_conversations := 1, total_sessions := 0,
       languages_breakdown := [("en", 1)], categories_breakdown := [("fees", 1)],
       avg_confidence := mkRat 8 10, human_handoff_count := 0 } : DailyStatRow).total_sessions =
      0 :=
  claim_C10
    [Op.log "2024-01-01 10:00:00" "2024-01-01" "sess1" "msg" "resp" "en" (mkRat 8 10)
      (some "fees") false]
    _ (by decide)

/-! ### C1: transaction structure of `log_conversation` -/

/-- The first transaction never touches `daily_stats`. -/
theorem logTurnPhase1_daily_stats (s : Store)
    (now session_id user_message bot_response language : String) (confidence : ℚ)
    (category : Option String) (needs_human : Bool) :
    (logTurnPhase1 s now session_id user_message bot_response language confidence category
        needs_human).daily_stats = s.daily_stats := rfl

/-- C1 counterexample: after the first commit of a `log_conversation` call on
the fresh store, a reader observes the turn recorded while `daily_stats` is
still empty — the partial write IS observable. -/
theorem claim_C1_counterexample :
    logTurnPhase1 emptyStore "2024-01-01 10:00:00" "sess1" "hello" "resp" "en" (mkRat 9 10)
        (some "greetings") false ∈
      logObservableStates emptyStore "2024-01-01 10:00:00" "2024-01-01" "sess1" "hello" "resp"
        "en" (mkRat 9 10) (some "greetings") false ∧
    (logTurnPhase1 emptyStore "2024-01-01 10:00:00" "sess1" "hello" "resp" "en" (mkRat 9 10)
        (some "greetings") false).conversations.length = 1 ∧
    (logTurnPhase1 emptyStore "2024-01-01 10:00:00" "sess1" "hello" "resp" "en" (mkRat 9 10)
        (some "greetings") false).daily_stats = [] :=
  ⟨by decide, rfl, rfl⟩

/-- C1 (amended): the session upsert and the turn insert commit together as
ONE transaction, but the daily-stat update runs as a SECOND transaction: a
reader can observe exactly three states — the initial one, the intermediate
one holding the new turn with `daily_stats` untouched, and the final one
where the separate `_update_daily_stats` transaction has also applied. -/
theorem claim_C1 (s : Store)
    (now today session_id user_message bot_response language : String) (confidence : ℚ)
    (category : Option String) (needs_human : Bool) :
    logObservableStates s now today session_id user_message bot_response language confidence
        category needs_human =
      [s,
        logTurnPhase1 s now session_id user_message bot_response language confidence category
          needs_human,
        updateDailyStats
          (logTurnPhase1 s now session_id user_message bot_response language confidence
            category needs_human)
          today language category confidence needs_human] ∧
    (logTurnPhase1 s now session_id user_message bot_response language confidence category
        needs_human).conversations =
      s.conversations ++
        [{ id := s.next_id, session_id := session_id, timestamp := now,
           user_message := user_message, bot_response := bot_response, language := language,
           confidence := confidence, category := category, needs_human := needs_human }] ∧
    (logTurnPhase1 s now session_id user_message bot_response language confidence category
        needs_human).daily_stats = s.daily_stats :=
  ⟨rfl, rfl, rfl⟩

/-! ### C2: the incremental average invariant -/

/-- One same-date `log_conversation` call advances the day invariant: count
up by one, confidence sum up by the new confidence. -/
theorem dayInv_log (today : String) (n : Nat) (q : ℚ) (s : Store) (h : dayInv today n q s)
    (now session_id user_message bot_response language : String) (confidence : ℚ)
    (category : Option String) (needs_human : Bool) :
    dayInv today (n + 1) (q + confidence)
      (logConversation s now today session_id user_message bot_response language confidence
        category needs_human) := by
  obtain ⟨h0, hpos⟩ := h
  have hstats :
      (logConversation s now today session_id user_message bot_response language confidence
          category needs_human).daily_stats =
        if s.daily_stats.any (fun d => d.date = today) then
          s.daily_stats.map (fun d =>
            if d.date = today then
              { d with
                total_conversations := d.total_conversations + 1
                languages_breakdown := bump d.languages_breakdown language
                categories_breakdown :=
                  match category with
                  | some c =>
                    if c = "" then d.categories_breakdown else bump d.categories_breakdown c
                  | none => d.categories_breakdown
                avg_confidence :=
                  qdiv (qadd (qmul d.avg_confidence (d.total_conversations : ℚ)) confidence)
                    ((d.total_conversations + 1 : Nat) : ℚ)
                human_handoff_count :=
                  d.human_handoff_count + (if needs_human then 1 else 0) }
            else d)
        else
          s.daily_stats ++
            [{ date := today, total_conversations := 1, total_sessions := 0,
               languages_breakdown := [(language, 1)],
               categories_breakdown :=
                 match category with
                 | some c => if c = "" then [] else [(c, 1)]
                 | none => [],
               avg_confidence := confidence,
               human_handoff_count := if needs_human then 1 else 0 }] := by
    unfold logConversation updateDailyStats
    rw [logTurnPhase1_daily_stats]
    split <;> rfl
  by_cases hn : n = 0
  · subst hn
    obtain ⟨hq, hnotoday⟩ := h0 rfl
    subst hq
    have hany : s.daily_stats.any (fun d => d.date = today) = false := by
      rw [List.any_eq_false]
      intro d hd
      simpa using hnotoday d hd
    unfold dayInv
    rw [hstats, if_neg (by rw [hany]; exact Bool.false_ne_true)]
    constructor
    · intro h1
      omega
    · intro _
      constructor
      · exact ⟨_, List.mem_append_right _ (List.mem_singleton_self _), rfl⟩
      · intro d hd hdt
        rcases List.mem_append.1 hd with hmem | hmem
        · exact absurd hdt (hnotoday d hmem)
        · rw [List.mem_singleton.1 hmem]
          constructor
          · rfl
          · push_cast
            ring
  · obtain ⟨⟨d0, hd0, hd0t⟩, hall⟩ := hpos hn
    have hany : s.daily_stats.any (fun d => d.date = today) = true :=
      List.any_eq_true.2 ⟨d0, hd0, by simpa using hd0t⟩
    unfold dayInv
    rw [hstats, if_pos (by rw [hany])]
    constructor
    · intro h1
      omega
    · intro _
      constructor
      · refine ⟨_, List.mem_map_of_mem _ hd0, ?_⟩
        rw [if_pos hd0t]
        exact hd0t
      · intro d' hd'
        obtain ⟨d, hd, rfl⟩ := List.mem_map.1 hd'
        by_cases hdt : d.date = today
        · rw [if_pos hdt]
          intro _
          obtain ⟨htot, havg⟩ := hall d hd hdt
          constructor
          · rw [htot]
          · rw [qdiv_eq, qadd_eq, qmul_eq, htot]
            have hne : ((n + 1 : Nat) : ℚ) ≠ 0 := by positivity
            push_cast at hne ⊢
            rw [div_mul_cancel₀ _ hne, havg]
        · rw [if_neg hdt]
          intro hc
          exact absurd hc hdt

/-- Folding same-date calls accumulates count and confidence sum. -/
theorem dayInv_applyLogs (today : String) (l : List LogArgs) :
    ∀ (s : Store) (n : Nat) (q : ℚ), dayInv today n q s →
      dayInv today (n + l.length) (q + (l.map (fun a => a.confidence)).sum)
        (applyLogs s today l) := by
  induction l with
  | nil =>
    intro s n q h
    simpa [applyLogs] using h
  | cons a l ih =>
    intro s n q h
    unfold applyLogs
    rw [List.foldl_cons]
    simp only [List.length_cons, List.map_cons, List.sum_cons]
    have harith1 : n + (l.length + 1) = n + 1 + l.length := by omega
    have harith2 :
        q + (a.confidence + (l.map (fun a => a.confidence)).sum) =
          q + a.confidence + (l.map (fun a => a.confidence)).sum := by ring
    rw [harith1, harith2]
    exact ih _ (n + 1) (q + a.confidence)
      (dayInv_log today n q s h a.now a.session_id a.user_message a.bot_response a.language
        a.confidence a.category a.needs_human)

/-- C2: after any sequence of `log_conversation` calls landing on one
calendar date (starting from a store with no row for that date), the stored
row satisfies `total_conversations = N` and
`avg_confidence * total_conversations = c1 + … + cN` exactly over `ℚ`; the
average is maintained by the incremental
`(old_avg * old_count + new_confidence) / (old_count + 1)` update embedded in
`updateDailyStats`, never by re-summing. -/
theorem claim_C2 (s : Store) (today : String) (l : List LogArgs)
    (h : ∀ d ∈ s.daily_stats, d.date ≠ today) :
    ∀ d ∈ (applyLogs s today l).daily_stats, d.date = today →
      d.total_conversations = l.length ∧
      d.avg_confidence * (d.total_conversations : ℚ) =
        (l.map (fun a => a.confidence)).sum := by
  have hinv := dayInv_applyLogs today l s 0 0 ⟨fun _ => ⟨rfl, h⟩, fun hn => absurd rfl hn⟩
  rw [Nat.zero_add, zero_add] at hinv
  intro d hd hdt
  rcases Nat.eq_zero_or_pos l.length with hl | hl
  · exact absurd hdt ((hinv.1 hl).2 d hd)
  · obtain ⟨htot, havg⟩ := (hinv.2 (by omega)).2 d hd hdt
    refine ⟨htot, ?_⟩
    rw [htot]
    exact havg

/-- C2 witness: logging confidences 0.8 and 0.4 on one date yields
`total_conversations = 2` and `avg_confidence * 2 = 1.2` (average 0.6). -/
theorem claim_C2_witness :
    c2WitnessRow.total_conversations = c2WitnessLogs.length ∧
    c2WitnessRow.avg_confidence * (c2WitnessRow.total_conversations : ℚ) =
      (c2WitnessLogs.map (fun a => a.confidence)).sum :=
  claim_C2 emptyStore "2024-01-01" c2WitnessLogs (by intro d hd; simp [emptyStore] at hd)
    c2WitnessRow (by decide) rfl

/-! ### C8: the `languages_used` update -/

/-- An element of the list occurs as a substring of its JSON serialization. -/
theorem mem_infix_jsonElems (x : String) :
    ∀ l : List String, x ∈ l → x.data <:+: jsonElems l := by
  intro l
  induction l with
  | nil =>
    intro h
    simp at h
  | cons y ys ih =>
    intro h
    rcases List.mem_cons.1 h with rfl | hmem
    · cases ys with
      | nil => exact ⟨['"'], ['"'], by simp [jsonElems]⟩
      | cons z zs => exact ⟨['"'], '"' :: ',' :: jsonElems (z :: zs), by simp [jsonElems]⟩
    · cases ys with
      | nil => simp at hmem
      | cons z zs =>
        refine (ih hmem).trans ?_
        exact ⟨'"' :: y.data ++ ['"', ','], [], by simp [jsonElems]⟩

/-- Membership forces the `LIKE '%' || language || '%'` test to hit. -/
theorem mem_likeContains (x : String) (l : List String) (h : x ∈ l) :
    likeContains (jsonArrayText l) x.data = true := by
  unfold likeContains
  rw [decide_eq_true_eq]
  have h1 : x.data <:+: jsonElems l := mem_infix_jsonElems x l h
  have h2 : jsonElems l <:+: jsonArrayText l := ⟨['['], [']'], by simp [jsonArrayText]⟩
  exact (h1.trans h2).map Char.toLower

/-- C8 counterexample: logging language `"e"` into a session whose set is
`["en"]` does NOT add `"e"`, although `"e"` is not a member — the `LIKE`
substring test on the serialized array hits inside `"en"`. -/
theorem claim_C8_counterexample :
    ((logConversation
          (logConversation emptyStore "2024-01-01 10:00:00" "2024-01-01" "sess1" "m" "r" "en"
            (mkRat 8 10) none false)
          "2024-01-01 11:00:00" "2024-01-01" "sess1" "m2" "r2" "e" (mkRat 8 10) none
          false).sessions.map
        (fun r => r.languages_used)) = [["en"]] ∧
    ("e" : String) ∉ (["en"] : List String) :=
  ⟨by decide, by decide⟩

/-- C8 (amended): for an existing session the language is appended exactly
when it does not occur (ASCII-case-insensitively) as a substring of the
serialized `languages_used` JSON array — membership implies such an
occurrence, so a member is never re-appended and the set stays
duplicate-free; a new session's set is initialised to exactly
`[language]`.  (For the five supported codes, none of which is a substring of
another's serialization, the test coincides with set membership.) -/
theorem claim_C8 (sessions : List SessionRow) (now session_id language : String) :
    ((sessions.any (fun r => r.session_id = session_id)) = false →
      upsertSession sessions now session_id language =
        sessions ++
          [{ session_id := session_id, created_at := now, updated_at := now,
             message_count := 1, languages_used := [language] }]) ∧
    (∀ r ∈ sessions, language ∈ r.languages_used →
      likeContains (jsonArrayText r.languages_used) language.data = true) ∧
    (∀ r' ∈ upsertSession sessions now session_id language,
      (∀ r ∈ sessions, r.languages_used.Nodup) → r'.languages_used.Nodup) := by
  refine ⟨fun hany => ?_, fun r _ hm => mem_likeContains language r.languages_used hm,
    fun r' hr' hnodup => ?_⟩
  · unfold upsertSession
    rw [if_neg (by rw [hany]; exact Bool.false_ne_true)]
  · unfold upsertSession at hr'
    split at hr'
    · obtain ⟨r, hr, rfl⟩ := List.mem_map.1 hr'
      by_cases hid : r.session_id = session_id
      · rw [if_pos hid]
        by_cases hlk : likeContains (jsonArrayText r.languages_used) language.data = true
        · simp only [hlk, if_pos]
          exact hnodup r hr
        · simp only [hlk, if_neg, ite_false]
          have hnotmem : language ∉ r.languages_used := fun hm =>
            hlk (mem_likeContains language r.languages_used hm)
          simp [List.nodup_append, hnodup r hr, hnotmem]
      · rw [if_neg hid]
        exact hnodup r hr
    · rcases List.mem_append.1 hr' with hmem | hmem
      · exact hnodup r' hmem
      · rw [List.mem_singleton.1 hmem]
        simp

/-- C8 witness: a fresh session initialises to `["en"]`; membership of `"en"`
in `["en"]` makes the `LIKE` test hit; the updated row of a second `"en"`
turn keeps a duplicate-free set. -/
theorem claim_C8_witness :
    upsertSession [] "t0" "sess1" "en" =
      [{ session_id := "sess1", created_at := "t0", updated_at := "t0", message_count := 1,
         languages_used := ["en"] }] ∧
    likeContains
        (jsonArrayText
          ({ session_id := "sess1", created_at := "t0", updated_at := "t0", message_count := 1,
             languages_used := ["en"] } : SessionRow).languages_used)
        ("en" : String).data = true ∧
    ({ session_id := "sess1", created_at := "t0", updated_at := "t1", message_count := 2,
       languages_used := ["en"] } : SessionRow).languages_used.Nodup :=
  ⟨(claim_C8 [] "t0" "sess1" "en").1 rfl,
   (claim_C8
       [{ session_id := "sess1", created_at := "t0", updated_at := "t0", message_count := 1,
          languages_used := ["en"] }]
       "t0" "sess1" "en").2.1
     { session_id := "sess1", created_at := "t0", updated_at := "t0", message_count := 1,
       languages_used := ["en"] }
     (List.mem_singleton_self _) (by decide),
   (claim_C8
       [{ session_id := "sess1", created_at := "t0", updated_at := "t0", message_count := 1,
          languages_used := ["en"] }]
       "t1" "sess1" "en").2.2
     { session_id := "sess1", created_at := "t0", updated_at := "t1", message_count := 2,
       languages_used := ["en"] }
     (by decide) (by decide)⟩

/-! ### C6: the "What is the fee deadline?" example, end to end -/

set_option maxRecDepth 8000

/-- Lower-casing the example message. -/
theorem c6_lower : lowerString "What is the fee deadline?" = "what is the fee deadline?" := by
  decide

/-- No greeting keyword occurs in the example message. -/
theorem c6_greet :
    greetingKeywords.any (fun k => containsSub "what is the fee deadline?" k) = false := by
  decide

/-- A keyword whose length satisfies `3*len(kw) <= 2*len(msg)` has ratio at
most `0.8` against the message, so it cannot displace a state that already
scores `0.8`. -/
theorem fbmKeywordStep_fixed (ml cat kw : String) (x : Option String)
    (hml : ml.data.length ≠ 0) (hlen : 3 * kw.data.length ≤ 2 * ml.data.length) :
    fbmKeywordStep ml cat (x, mkRat 8 10) kw = (x, mkRat 8 10) := by
  have hm := matchingBlocksSum_le_left kw.data ml.data kw.data.length 0 kw.data.length 0
    ml.data.length
  have hsim : smRatio kw ml ≤ mkRat 8 10 := by
    rw [mkRat_eq_point8, smRatio]
    split
    · rename_i hT
      exact absurd (by omega : ml.data.length = 0) hml
    · rw [qdiv_eq, qmul_eq]
      rw [div_le_iff₀ (by positivity :
        (0 : ℚ) < ((kw.data.length + ml.data.length : Nat) : ℚ))]
      have hnat : 5 * matchingBlocksSum kw.data ml.data kw.data.length 0 kw.data.length 0
          ml.data.length ≤ 2 * (kw.data.length + ml.data.length) := by omega
      have hq : (5 : ℚ) * matchingBlocksSum kw.data ml.data kw.data.length 0 kw.data.length 0
          ml.data.length ≤ 2 * ((kw.data.length : ℚ) + ml.data.length) := by exact_mod_cast hnat
      push_cast
      linarith
  unfold fbmKeywordStep
  dsimp only
  have hin :
      (if containsSub ml kw = true ∧ mkRat 8 10 < mkRat 8 10 then
          ((some cat, mkRat 8 10) : Option String × ℚ)
        else (x, mkRat 8 10)) = (x, mkRat 8 10) :=
    if_neg (fun hc => absurd hc.2 (lt_irrefl _))
  rw [hin]
  dsimp only
  rw [if_neg (fun hc => absurd hc.2 (not_lt.2 hsim))]

/-- Folding such keywords leaves the `0.8` state unchanged. -/
theorem fbmFold_fixed (ml cat : String) (x : Option String) (kws : List String)
    (hml : ml.data.length ≠ 0) (hlen : ∀ kw ∈ kws, 3 * kw.data.length ≤ 2 * ml.data.length) :
    List.foldl (fbmKeywordStep ml cat) (x, mkRat 8 10) kws = (x, mkRat 8 10) := by
  induction kws with
  | nil => rfl
  | cons kw kws ih =>
    rw [List.foldl_cons,
      fbmKeywordStep_fixed ml cat kw x hml (hlen kw (List.mem_cons_self kw kws))]
    exact ih (fun k hk => hlen k (List.mem_cons_of_mem kw hk))

/-- The fees keywords score the example message at `0.8`: the very first
keyword `"fee"` is a substring, and no later keyword can beat `0.8`. -/
theorem c6_fees :
    List.foldl (fbmKeywordStep "what is the fee deadline?" "fees") (none, mkRat 0 1)
      feesData.keywords = (some "fees", mkRat 8 10) := by
  have h1 : fbmKeywordStep "what is the fee deadline?" "fees" (none, mkRat 0 1) "fee" =
      (some "fees", mkRat 8 10) := by decide
  rw [show feesData.keywords =
    "fee" :: ["fees", "payment", "tuition", "शुल्क", "फीस", "ફી", "शुल्क"] from rfl]
  rw [List.foldl_cons, h1]
  exact fbmFold_fixed _ _ _ _ (by decide) (by decide)

/-- The scholarships keywords do not beat the fees score. -/
theorem c6_scholarships :
    List.foldl (fbmKeywordStep "what is the fee deadline?" "scholarships")
      (some "fees", mkRat 8 10) scholarshipsData.keywords = (some "fees", mkRat 8 10) :=
  fbmFold_fixed _ _ _ _ (by decide) (by decide)

/-- The timetable keywords do not beat the fees score. -/
theorem c6_timetable :
    List.foldl (fbmKeywordStep "what is the fee deadline?" "timetable")
      (some "fees", mkRat 8 10) timetableData.keywords = (some "fees", mkRat 8 10) :=
  fbmFold_fixed _ _ _ _ (by decide) (by decide)

/-- The admission keywords do not beat the fees score. -/
theorem c6_admission :
    List.foldl (fbmKeywordStep "what is the fee deadline?" "admission")
      (some "fees", mkRat 8 10) admissionData.keywords = (some "fees", mkRat 8 10) :=
  fbmFold_fixed _ _ _ _ (by decide) (by decide)

/-- The exams keywords do not beat the fees score. -/
theorem c6_exams :
    List.foldl (fbmKeywordStep "what is the fee deadline?" "exams")
      (some "fees", mkRat 8 10) examsData.keywords = (some "fees", mkRat 8 10) :=
  fbmFold_fixed _ _ _ _ (by decide) (by decide)

/-- The classification of the example message. -/
theorem c6_findBestMatch :
    findBestMatch "What is the fee deadline?" "en" = ("fees", mkRat 8 10) := by
  unfold findBestMatch
  rw [c6_lower]
  rw [if_neg (by rw [c6_greet]; exact Bool.false_ne_true)]
  have hfold :
      List.foldl
          (fun st c =>
            List.foldl (fbmKeywordStep "what is the fee deadline?" c.1) st c.2.keywords)
          (none, mkRat 0 1) kbCategories =
        (some "fees", mkRat 8 10) := by
    unfold kbCategories
    rw [List.foldl_cons]
    dsimp only
    rw [c6_fees, List.foldl_cons]
    dsimp only
    rw [c6_scholarships, List.foldl_cons]
    dsimp only
    rw [c6_timetable, List.foldl_cons]
    dsimp only
    rw [c6_admission, List.foldl_cons]
    dsimp only
    rw [c6_exams, List.foldl_nil]
  rw [hfold]
  rfl

/-- C6: with no language supplied and the statistical detector guessing
`"en"` for the English text, the Language Identifier returns `"en"` (the
pattern pass does not fire); the engine finds `"fee"` as a substring, scores
the `"fees"` category at exactly `0.8`, which is at or above the `0.6`
threshold, and returns the English fees response with `needs_human = false`
and no contact attached. -/
theorem claim_C6 (sd : String → Except Unit String)
    (h : sd "What is the fee deadline?" = Except.ok "en") :
    detectLanguage sd "What is the fee deadline?" = "en" ∧
    containsSub (lowerString "What is the fee deadline?") "fee" = true ∧
    (processMessage "What is the fee deadline?" "en").category = "fees" ∧
    (processMessage "What is the fee deadline?" "en").confidence = (0.8 : ℚ) ∧
    (processMessage "What is the fee deadline?" "en").needs_human = false ∧
    (processMessage "What is the fee deadline?" "en").response = getResponse "fees" "en" ∧
    aget feesData.responses "en" = some (getResponse "fees" "en") ∧
    confidenceThreshold ≤ (0.8 : ℚ) := by
  have hdet : detectLanguage sd "What is the fee deadline?" = "en" := by
    have hpat : patternBasedDetection "What is the fee deadline?" = none := by decide
    rw [detectLanguage, if_neg (by decide)]
    simp only [hpat, h]
    rfl
  have hpm :
      processMessage "What is the fee deadline?" "en" =
        { response := getResponse "fees" "en", confidence := mkRat 8 10, category := "fees",
          needs_human := false, contact := none } := by
    unfold processMessage
    rw [c6_findBestMatch]
    dsimp only
    rw [if_neg (by decide)]
  refine ⟨hdet, by decide, ?_, ?_, ?_, ?_, by decide, ?_⟩
  · rw [hpm]
  · rw [hpm]
    exact mkRat_eq_point8
  · rw [hpm]
  · rw [hpm]
  · rw [confidenceThreshold_eq]
    norm_num

/-- C6 witness: the detector that answers `"en"`. -/
theorem claim_C6_witness :
    detectLanguage (fun _ => Except.ok "en") "What is the fee deadline?" = "en" ∧
    containsSub (lowerString "What is the fee deadline?") "fee" = true ∧
    (processMessage "What is the fee deadline?" "en").category = "fees" ∧
    (processMessage "What is the fee deadline?" "en").confidence = (0.8 : ℚ) ∧
    (processMessage "What is the fee deadline?" "en").needs_human = false ∧
    (processMessage "What is the fee deadline?" "en").response = getResponse "fees" "en" ∧
    aget feesData.responses "en" = some (getResponse "fees" "en") ∧
    confidenceThreshold ≤ (0.8 : ℚ) :=
  claim_C6 (fun _ => Except.ok "en") rfl

end LingBot
